import Mathlib

/-!
# Verification of the `simple-chromium-ai` core

A shallow embedding of the repository's core logic (`src/index.ts` and
`src/safe.ts`): the availability state machine of `initializeSafe`, the two
session-option merge policies of `createSessionSafe` (index variant) and
`createSession` (safe variant), the scoped-session helper `withSessionSafe`,
the token accountant `checkTokenUsageSafe`, the cancellation composer inside
`promptSafe`, and the throwing wrappers built with `okOrThrow`.

Host behavior (availability probes, session construction, the generation
call, presence of the first-of-N signal-composition primitive) is passed in
explicitly, so every run of the embedded code is a pure computation.
Side effects that the specification talks about (session destruction,
callback invocation, timer creation and clearing, download attempts) are
recorded as explicit event traces.
-/

namespace SimpleChromiumAI

/-- Message roles recognized by the session configuration. -/
inductive Role where
  | system
  | user
  | assistant
  deriving DecidableEq, Repr

/-- One entry of `initialPrompts`: a role-tagged message. -/
structure Message where
  role : Role
  content : String
  deriving DecidableEq, Repr

/-- JS truthiness of an optional string (`undefined` and `""` are falsy),
as used by `if (instance.systemPrompt)`. -/
def strTruthy : Option String → Bool
  | none => false
  | some s => s != ""

/-- JS truthiness of an optional number (`undefined` and `0` are falsy),
as used by `if (timeout)`. -/
def numTruthy : Option Nat → Bool
  | none => false
  | some n => n != 0

/-- JS `x || 0` on an optional non-negative number, as used for
`session.inputQuota || 0` and `session.inputUsage || 0`. -/
def jsOrZero : Option Nat → Nat
  | none => 0
  | some n => if n = 0 then 0 else n

/-- The system-role message synthesized from the instance's system prompt. -/
def systemMessage (content : String) : Message :=
  { role := Role.system, content := content }

/-- The `initialPrompts` merge performed by `createSessionSafe` in
`src/index.ts` (the prepend variant): when the instance's system prompt is
truthy, `mergedOptions.initialPrompts` is set to the synthesized system
message, and when the caller supplied a non-empty `initialPrompts`, the
messages after position zero (`slice(1)`) are appended after it; when the
system prompt is not truthy, the caller's `initialPrompts` is used as is. -/
def mergeInitialPromptsIndex (systemPrompt : Option String)
    (optPrompts : Option (List Message)) : Option (List Message) :=
  if strTruthy systemPrompt then
    let sysMsg := systemMessage (systemPrompt.getD "")
    match optPrompts with
    | some ps =>
        if 0 < ps.length then
          let nonSystemMessages := ps.drop 1
          if 0 < nonSystemMessages.length then some (sysMsg :: nonSystemMessages)
          else some [sysMsg]
        else some [sysMsg]
    | none => some [sysMsg]
  else
    match optPrompts with
    | some ps => some ps
    | none => optPrompts

/-- The `initialPrompts` merge performed by `createSession` in
`src/safe.ts` (the override variant): when the instance's system prompt is
truthy, `mergedOptions.initialPrompts` is first set to the synthesized system
message; then, when the caller supplied a non-empty `initialPrompts`, it
overrides that synthesized message entirely. -/
def mergeInitialPromptsSafe (systemPrompt : Option String)
    (optPrompts : Option (List Message)) : Option (List Message) :=
  let merged0 :=
    if strTruthy systemPrompt then some [systemMessage (systemPrompt.getD "")]
    else optPrompts
  match optPrompts with
  | some ps => if 0 < ps.length then some ps else merged0
  | none => merged0

/-- The `TokenUsageInfo` record computed by `checkTokenUsageSafe`.
Fields are integers because `maxTokens - tokensSoFar` can be negative. -/
structure TokenUsageInfo where
  promptTokens : Int
  maxTokens : Int
  tokensSoFar : Int
  tokensAvailable : Int
  willFit : Bool
  deriving DecidableEq, Repr

/-- The body of `checkTokenUsageSafe`'s session callback: builds the
`TokenUsageInfo` from the measured prompt cost and the host-reported
`inputQuota` and `inputUsage` (each defaulted to `0` when falsy). -/
def mkTokenUsageInfo (promptTokens : Nat) (inputQuota inputUsage : Option Nat) :
    TokenUsageInfo :=
  let maxTokens : Int := jsOrZero inputQuota
  let tokensSoFar : Int := jsOrZero inputUsage
  let tokensAvailable : Int := maxTokens - tokensSoFar
  { promptTokens := promptTokens
    maxTokens := maxTokens
    tokensSoFar := tokensSoFar
    tokensAvailable := tokensAvailable
    willFit := decide ((promptTokens : Int) ≤ tokensAvailable) }

/-- Host-provided session handle, as far as the embedded code observes it:
its quota counters and its tokenizer (`measureInputUsage`). -/
structure Session where
  inputQuota : Option Nat
  inputUsage : Option Nat
  measure : String → Nat

/-- Observable side effects of the scoped-session helper. -/
inductive WEvent where
  | callbackInvoked
  | destroyedSession
  deriving DecidableEq, Repr

/-- A `ResultAsync` computation together with the trace of side effects it
performed, in order. -/
abbrev Traced (ε α : Type) := Except ε α × List WEvent

/-- `neverthrow`'s `ResultAsync.map` with an effectful mapping function:
runs `f` (recording its effects) only on a success value. -/
def RMap {ε α β : Type} (x : Traced ε α) (f : α → β × List WEvent) : Traced ε β :=
  match x with
  | (Except.ok a, ev) =>
      let r := f a
      (Except.ok r.1, ev ++ r.2)
  | (Except.error e, ev) => (Except.error e, ev)

/-- `neverthrow`'s `ResultAsync.mapErr` with an effectful mapping function:
runs `f` (recording its effects) only on a failure value. -/
def RMapErr {ε α : Type} (x : Traced ε α) (f : ε → ε × List WEvent) : Traced ε α :=
  match x with
  | (Except.ok a, ev) => (Except.ok a, ev)
  | (Except.error e, ev) =>
      let r := f e
      (Except.error r.1, ev ++ r.2)

/-- `neverthrow`'s `ResultAsync.andThen`: sequences a dependent traced
computation after a success value. -/
def RAndThen {ε α β : Type} (x : Traced ε α) (f : α → Traced ε β) : Traced ε β :=
  match x with
  | (Except.ok a, ev) =>
      let r := f a
      (r.1, ev ++ r.2)
  | (Except.error e, ev) => (Except.error e, ev)

/-- `withSessionSafe` from `src/index.ts` (identical to `withSession` in
`src/safe.ts`): chains the session-creation result with the callback, and
destroys the session in both the `map` (success) and `mapErr` (failure)
continuations. `createResult` is the traced outcome of `createSessionSafe`. -/
def withSessionSafe {ε T : Type} (createResult : Traced ε Session)
    (callback : Session → Except ε T) : Traced ε T :=
  RAndThen createResult (fun session =>
    RMapErr
      (RMap (callback session, [WEvent.callbackInvoked])
        (fun value => (value, [WEvent.destroyedSession])))
      (fun error => (error, [WEvent.destroyedSession])))

/-- `createSessionSafe` from `src/index.ts`: merges the options (prepend
variant) and calls the host session constructor, wrapping a host failure
message. `hostCreate` models `LanguageModel.create`. -/
def createSessionSafe (hostCreate : Option (List Message) → Except String Session)
    (systemPrompt : Option String) (options : Option (List Message)) :
    Traced String Session :=
  match hostCreate (mergeInitialPromptsIndex systemPrompt options) with
  | Except.ok session => (Except.ok session, [])
  | Except.error msg =>
      (Except.error ("Failed to create AI session: " ++ msg ++
        ". This might be due to rate limiting or resource constraints."), [])

/-- `checkTokenUsageSafe` from `src/index.ts`: opens a scoped session and
computes the `TokenUsageInfo` snapshot inside it. -/
def checkTokenUsageSafe (hostCreate : Option (List Message) → Except String Session)
    (systemPrompt : Option String) (promptText : String)
    (sessionOptions : Option (List Message)) : Traced String TokenUsageInfo :=
  withSessionSafe (createSessionSafe hostCreate systemPrompt sessionOptions)
    (fun session =>
      Except.ok (mkTokenUsageInfo (session.measure promptText)
        session.inputQuota session.inputUsage))

/-- A ready instance: the caller-supplied system prompt plus the freshly
generated unique identifier (`crypto.randomUUID`, taken as host input). -/
structure Instance where
  systemPrompt : Option String
  instanceId : String
  deriving DecidableEq, Repr

/-- Host-reported availability tier of the language-model capability. -/
inductive Availability where
  | unavailable
  | downloadable
  | downloading
  | available
  deriving DecidableEq, Repr

/-- Host behavior observed by one run of `initializeSafe`: whether the
`LanguageModel` API exists, the result of the first availability probe, the
outcome of the download step (creating the temporary session), and the
result of the final availability probe. -/
structure InitHost where
  apiExists : Bool
  probe1 : Availability
  downloadOk : Bool
  probe2 : Availability
  deriving DecidableEq, Repr

/-- Observable side effects of one run of `initializeSafe`. -/
inductive InitEvent where
  | downloadAttempted
  | tempSessionDestroyed
  deriving DecidableEq, Repr

/-- The two error values constructed by `initializeSafe` in `src/index.ts`:
the capability-unavailable error and the download-failed error. -/
inductive InitError where
  | unavailableErr
  | downloadErr
  deriving DecidableEq, Repr

/-- `initializeSafe` from `src/index.ts` (the inline-download variant):
checks API existence, probes availability, performs the inline download step
for `downloadable`/`downloading`, re-probes, and constructs the instance
only on a final `available` reading. -/
def initializeSafe (systemPrompt : Option String) (uuid : String) (h : InitHost) :
    Except InitError Instance × List InitEvent :=
  if h.apiExists = false then (Except.error InitError.unavailableErr, [])
  else if h.probe1 = Availability.unavailable then
    (Except.error InitError.unavailableErr, [])
  else
    let step : Except InitError Unit × List InitEvent :=
      if h.probe1 = Availability.downloadable ∨ h.probe1 = Availability.downloading then
        if h.downloadOk then
          (Except.ok (), [InitEvent.downloadAttempted, InitEvent.tempSessionDestroyed])
        else (Except.error InitError.downloadErr, [InitEvent.downloadAttempted])
      else (Except.ok (), [])
    match step with
    | (Except.error e, ev) => (Except.error e, ev)
    | (Except.ok _, ev) =>
        if h.probe2 = Availability.available then
          (Except.ok { systemPrompt := systemPrompt, instanceId := uuid }, ev)
        else (Except.error InitError.downloadErr, ev)

/-- The two atomic cancellation sources a `promptSafe` call can have: the
caller-supplied signal and the signal of the timeout's `AbortController`. -/
inductive Sig where
  | user
  | timer
  deriving DecidableEq, Repr

/-- The effective signal handed to the generation call: either one atomic
source as-is, or an `AbortSignal.any` composition of several sources. -/
inductive EffSig where
  | single (s : Sig)
  | anyOf (signals : List Sig)
  deriving DecidableEq, Repr

/-- Whether an effective signal fires, given which atomic sources fired:
a single source fires with its source; an `AbortSignal.any` composition
fires as soon as any member source fires. -/
def effFires (fired : Sig → Bool) : EffSig → Bool
  | EffSig.single s => fired s
  | EffSig.anyOf l => l.any fired

/-- The signal-composition block of `promptSafe`: from the (possibly falsy)
timeout, the presence of a caller-supplied signal, and the availability of
`AbortSignal.any`, computes the signal placed into the final prompt options
and whether a timeout timer was created (`setTimeout` reached). -/
def composeSignal (timeout : Option Nat) (userSignal : Bool) (hasAbortAny : Bool) :
    Option EffSig × Bool :=
  let origSignal : Option EffSig :=
    if userSignal then some (EffSig.single Sig.user) else none
  if numTruthy timeout || userSignal then
    let signals : List Sig :=
      (if userSignal then [Sig.user] else []) ++
        (if numTruthy timeout then [Sig.timer] else [])
    let timerCreated := numTruthy timeout
    if 1 < signals.length ∧ hasAbortAny then
      (some (EffSig.anyOf signals), timerCreated)
    else if signals.length = 1 then
      (some (EffSig.single (signals.headD Sig.user)), timerCreated)
    else (origSignal, timerCreated)
  else (origSignal, false)

/-- Timer side effects of one run of `promptSafe`'s session callback. -/
inductive PEvent where
  | timerSet
  | timerCleared
  deriving DecidableEq, Repr

/-- The `try`/`finally` body of `promptSafe`'s session callback: composes
the effective signal, issues the generation call (`hostPrompt`, which may
succeed, fail, or be aborted — all surfacing as an `Except`), and clears the
timer in the `finally` block exactly when one was set. -/
def promptSessionBody (timeout : Option Nat) (userSignal : Bool)
    (hasAbortAny : Bool) (hostPrompt : Option EffSig → Except String String) :
    Except String String × List PEvent :=
  let c := composeSignal timeout userSignal hasAbortAny
  let setupEvents := if c.2 then [PEvent.timerSet] else []
  let outcome := hostPrompt c.1
  let cleanupEvents := if c.2 then [PEvent.timerCleared] else []
  (outcome, setupEvents ++ cleanupEvents)

/-- `promptSafe` from `src/index.ts`: opens a scoped session and runs the
generation call with the composed cancellation signal inside it. -/
def promptSafe (hostCreate : Option (List Message) → Except String Session)
    (systemPrompt : Option String) (timeout : Option Nat) (userSignal : Bool)
    (hasAbortAny : Bool) (hostPrompt : Session → Option EffSig → Except String String)
    (sessionOptions : Option (List Message)) : Traced String String :=
  withSessionSafe (createSessionSafe hostCreate systemPrompt sessionOptions)
    (fun session =>
      (promptSessionBody timeout userSignal hasAbortAny (hostPrompt session)).1)

/-- Outcome of a throwing-convention call: the function either returned a
value or threw an error. -/
inductive ThrowOutcome (ε α : Type) where
  | returns (value : α)
  | throws (error : ε)
  deriving DecidableEq, Repr

/-- `okOrThrow` from `src/index.ts`: `result.match(ok => ok, err => { throw err })`. -/
def okOrThrow {ε α : Type} (result : Except ε α) : ThrowOutcome ε α :=
  match result with
  | Except.ok v => ThrowOutcome.returns v
  | Except.error e => ThrowOutcome.throws e

/-- A throwing-convention outcome agrees with a result-convention outcome
when they carry the same payload or the same error. -/
def agrees {ε α : Type} (t : ThrowOutcome ε α) (r : Except ε α) : Prop :=
  match t, r with
  | ThrowOutcome.returns v, Except.ok w => v = w
  | ThrowOutcome.throws e, Except.error f => e = f
  | _, _ => False

/-- The conversion `ResultAsync.fromPromise` applies to the throwing
callback handed to `withSession`: a returned value becomes a success value,
a thrown error becomes a failure value. -/
def fromPromiseConv {α : Type} : ThrowOutcome String α → Except String α
  | ThrowOutcome.returns v => Except.ok v
  | ThrowOutcome.throws e => Except.error e

/-- The throwing (default) form of initialization: `okOrThrow` around
`initializeSafe`. (The source names it plain `initialize`; that word is a
keyword here, hence the suffix.) -/
def initializeDefault (systemPrompt : Option String) (uuid : String) (h : InitHost) :
    ThrowOutcome InitError Instance :=
  okOrThrow (initializeSafe systemPrompt uuid h).1

/-- The throwing form `createSession`: `okOrThrow` around `createSessionSafe`. -/
def createSession (hostCreate : Option (List Message) → Except String Session)
    (systemPrompt : Option String) (options : Option (List Message)) :
    ThrowOutcome String Session :=
  okOrThrow (createSessionSafe hostCreate systemPrompt options).1

/-- The throwing form `withSession`: wraps the promise-returning callback
with `ResultAsync.fromPromise`, runs `withSessionSafe`, and unwraps with
`okOrThrow`. -/
def withSession {T : Type} (createResult : Traced String Session)
    (callback : Session → ThrowOutcome String T) : ThrowOutcome String T :=
  okOrThrow (withSessionSafe createResult
    (fun session => fromPromiseConv (callback session))).1

/-- The throwing form `checkTokenUsage`: `okOrThrow` around `checkTokenUsageSafe`. -/
def checkTokenUsage (hostCreate : Option (List Message) → Except String Session)
    (systemPrompt : Option String) (promptText : String)
    (sessionOptions : Option (List Message)) : ThrowOutcome String TokenUsageInfo :=
  okOrThrow (checkTokenUsageSafe hostCreate systemPrompt promptText sessionOptions).1

/-- The throwing form `prompt`: `okOrThrow` around `promptSafe`. -/
def prompt (hostCreate : Option (List Message) → Except String Session)
    (systemPrompt : Option String) (timeout : Option Nat) (userSignal : Bool)
    (hasAbortAny : Bool) (hostPrompt : Session → Option EffSig → Except String String)
    (sessionOptions : Option (List Message)) : ThrowOutcome String String :=
  okOrThrow (promptSafe hostCreate systemPrompt timeout userSignal hasAbortAny
    hostPrompt sessionOptions).1

/-! ## Theorems -/

/-- C1: `withSessionSafe`/`withSession` first attempt session creation.
A creation failure is returned unchanged and the callback is never invoked
(the output does not depend on the callback and the trace is empty).
On successful creation the callback's success or failure value is returned
unchanged, and the trace shows the session destroyed exactly once, after the
callback ran and before control returns. -/
theorem withSessionSafe_scoped_cleanup (T : Type) :
    (∀ (e : String) (cb : Session → Except String T),
        withSessionSafe (Except.error e, ([] : List WEvent)) cb
          = (Except.error e, [])) ∧
    (∀ (s : Session) (cb : Session → Except String T),
        withSessionSafe (Except.ok s, ([] : List WEvent)) cb
          = (cb s, [WEvent.callbackInvoked, WEvent.destroyedSession])) := by
  constructor
  · intro e cb
    rfl
  · intro s cb
    cases h : cb s <;>
      simp [withSessionSafe, RAndThen, RMap, RMapErr, h]

/-- C2 counterexample: with system instruction `"A"` and caller initial
messages `[user "hello"]` (only non-system messages), the index-variant
merge does not keep them all: it drops the first caller message
unconditionally, producing `[system "A"]` rather than
`[system "A", user "hello"]`. -/
theorem mergeIndex_drops_first_nonsystem :
    mergeInitialPromptsIndex (some "A")
        (some [{ role := Role.user, content := "hello" }])
      = some [systemMessage "A"] ∧
    mergeInitialPromptsIndex (some "A")
        (some [{ role := Role.user, content := "hello" }])
      ≠ some [systemMessage "A", { role := Role.user, content := "hello" }] := by
  constructor
  · rfl
  · decide

/-- C2 (amended): under the index-variant merge with a truthy system
instruction, the synthesized system message occupies position zero, and the
caller's first initial message — whatever its role — is dropped, while all
messages after it (system or not) are preserved in order after the
synthesized one; with no caller messages the synthesized message stands
alone. In particular a leading caller system message is dropped with the
rest preserved, but a list of only non-system messages also loses its first
element. -/
theorem mergeIndex_amended (sp : String) (hsp : sp ≠ "") (ps : List Message) :
    mergeInitialPromptsIndex (some sp) (some ps)
        = some (systemMessage sp :: ps.drop 1) ∧
    mergeInitialPromptsIndex (some sp) none = some [systemMessage sp] := by
  have htr : strTruthy (some sp) = true := by
    simp [strTruthy]
    exact hsp
  constructor
  · cases ps with
    | nil => simp [mergeInitialPromptsIndex, htr]
    | cons a t =>
        cases t with
        | nil => simp [mergeInitialPromptsIndex, htr]
        | cons b t2 => simp [mergeInitialPromptsIndex, htr]
  · simp [mergeInitialPromptsIndex, htr]

/-- C2 witness: the amended merge rule evaluated at the spec's own scenario
(system instruction `"A"`, caller messages `[system "B", user "hello"]`). -/
theorem mergeIndex_amended_witness :
    mergeInitialPromptsIndex (some "A")
        (some [{ role := Role.system, content := "B" },
               { role := Role.user, content := "hello" }])
      = some (systemMessage "A" ::
          ([{ role := Role.system, content := "B" },
             { role := Role.user, content := "hello" }] : List Message).drop 1) ∧
    mergeInitialPromptsIndex (some "A") none = some [systemMessage "A"] :=
  mergeIndex_amended "A" (by decide)
    [{ role := Role.system, content := "B" },
     { role := Role.user, content := "hello" }]

/-- C3: every successful result of `checkTokenUsageSafe`/`checkTokenUsage`
satisfies exactly `tokensAvailable = maxTokens - tokensSoFar` and
`willFit = (promptTokens ≤ tokensAvailable)`. -/
theorem checkTokenUsage_invariant
    (hostCreate : Option (List Message) → Except String Session)
    (systemPrompt : Option String) (promptText : String)
    (sessionOptions : Option (List Message)) (info : TokenUsageInfo)
    (h : (checkTokenUsageSafe hostCreate systemPrompt promptText sessionOptions).1
          = Except.ok info) :
    info.tokensAvailable = info.maxTokens - info.tokensSoFar ∧
    (info.willFit = true ↔ info.promptTokens ≤ info.tokensAvailable) := by
  unfold checkTokenUsageSafe withSessionSafe createSessionSafe at h
  cases hc : hostCreate (mergeInitialPromptsIndex systemPrompt sessionOptions) with
  | error msg =>
      rw [hc] at h
      simp [RAndThen, RMap, RMapErr] at h
  | ok session =>
      rw [hc] at h
      simp [RAndThen, RMap, RMapErr] at h
      subst h
      simp [mkTokenUsageInfo]

/-- Demonstration host session for the token accountant: quota 10, usage 2,
every prompt measured at 3 tokens. -/
def tokenDemoSession : Session :=
  { inputQuota := some 10, inputUsage := some 2, measure := fun _ => 3 }

/-- Demonstration host session constructor that always succeeds. -/
def tokenDemoHostCreate : Option (List Message) → Except String Session :=
  fun _ => Except.ok tokenDemoSession

/-- The `TokenUsageInfo` produced on the demonstration host. -/
def tokenDemoInfo : TokenUsageInfo := mkTokenUsageInfo 3 (some 10) (some 2)

/-- C3 witness: the invariant evaluated on a concrete successful run. -/
theorem checkTokenUsage_invariant_witness :
    tokenDemoInfo.tokensAvailable = tokenDemoInfo.maxTokens - tokenDemoInfo.tokensSoFar ∧
    (tokenDemoInfo.willFit = true ↔
      tokenDemoInfo.promptTokens ≤ tokenDemoInfo.tokensAvailable) :=
  checkTokenUsage_invariant tokenDemoHostCreate none "abc" none tokenDemoInfo rfl

/-- C10: a falsy (absent or zero) host-reported `inputQuota` or `inputUsage`
is substituted by `0` in the computed `TokenUsageInfo`; in particular, with
`inputQuota` absent, `maxTokens` is `0`, `tokensAvailable` equals
`-tokensSoFar`, and `willFit` is `false` for every prompt of positive token
cost. -/
theorem checkTokenUsage_falsy_zero (pt : Nat) (quota usage : Option Nat)
    (hpt : 0 < pt) :
    (mkTokenUsageInfo pt none usage).maxTokens = 0 ∧
    (mkTokenUsageInfo pt (some 0) usage).maxTokens = 0 ∧
    (mkTokenUsageInfo pt quota none).tokensSoFar = 0 ∧
    (mkTokenUsageInfo pt quota (some 0)).tokensSoFar = 0 ∧
    (mkTokenUsageInfo pt none usage).tokensAvailable
        = -(mkTokenUsageInfo pt none usage).tokensSoFar ∧
    (mkTokenUsageInfo pt none usage).willFit = false := by
  refine ⟨rfl, ?_, ?_, ?_, ?_, ?_⟩
  · simp [mkTokenUsageInfo, jsOrZero]
  · cases quota <;> simp [mkTokenUsageInfo, jsOrZero]
  · cases quota <;> simp [mkTokenUsageInfo, jsOrZero]
  · simp [mkTokenUsageInfo, jsOrZero]
  · cases usage with
    | none => simp [mkTokenUsageInfo, jsOrZero]; omega
    | some n =>
        simp [mkTokenUsageInfo, jsOrZero]
        split <;> omega

/-- C10 witness: the falsy-substitution behavior on concrete inputs
(prompt cost 3, quota 5, usage 2). -/
theorem checkTokenUsage_falsy_zero_witness :
    (mkTokenUsageInfo 3 none (some 2)).maxTokens = 0 ∧
    (mkTokenUsageInfo 3 (some 0) (some 2)).maxTokens = 0 ∧
    (mkTokenUsageInfo 3 (some 5) none).tokensSoFar = 0 ∧
    (mkTokenUsageInfo 3 (some 5) (some 0)).tokensSoFar = 0 ∧
    (mkTokenUsageInfo 3 none (some 2)).tokensAvailable
        = -(mkTokenUsageInfo 3 none (some 2)).tokensSoFar ∧
    (mkTokenUsageInfo 3 none (some 2)).willFit = false :=
  checkTokenUsage_falsy_zero 3 (some 5) (some 2) (by decide)

/-- C4 counterexample: on a host whose first availability probe reads
`available` but whose final probe does not, `initializeSafe` does not return
an Instance: it fails with the download-failed error even though no
download step ran, because the code re-probes availability at the end of
every non-error path. -/
theorem initialize_available_reprobe_counterexample :
    initializeSafe none "id0"
        { apiExists := true, probe1 := Availability.available,
          downloadOk := true, probe2 := Availability.unavailable }
      = (Except.error InitError.downloadErr, []) := by
  rfl

/-- Demonstration host for the inline-download initializer: API present,
first probe `downloadable`, download succeeds, re-probe `available`. -/
def initDemoHost : InitHost :=
  { apiExists := true, probe1 := Availability.downloadable,
    downloadOk := true, probe2 := Availability.available }

/-- C4 (amended): with the API present, an `unavailable` probe yields a
single failure with no download attempted and no session created; an
`available` probe skips the download step but availability is still
re-probed, and an Instance results exactly when the re-probe also reads
`available` (otherwise a failure); in the `downloadable`/`downloading` path
with a successful download step, only a final `available` re-probe yields an
Instance, any other reading a failure. -/
theorem initialize_amended (sp : Option String) (uuid : String) (h : InitHost)
    (hapi : h.apiExists = true) :
    (h.probe1 = Availability.unavailable →
        initializeSafe sp uuid h = (Except.error InitError.unavailableErr, [])) ∧
    (h.probe1 = Availability.available →
        (initializeSafe sp uuid h).2 = [] ∧
        (initializeSafe sp uuid h).1 =
          (if h.probe2 = Availability.available then
              Except.ok { systemPrompt := sp, instanceId := uuid }
            else Except.error InitError.downloadErr)) ∧
    ((h.probe1 = Availability.downloadable ∨ h.probe1 = Availability.downloading) →
        h.downloadOk = true →
        (initializeSafe sp uuid h).1 =
          (if h.probe2 = Availability.available then
              Except.ok { systemPrompt := sp, instanceId := uuid }
            else Except.error InitError.downloadErr)) := by
  obtain ⟨api, p1, dl, p2⟩ := h
  simp only at hapi
  subst hapi
  refine ⟨fun h1 => ?_, fun h1 => ?_, fun h1 h2 => ?_⟩
  · simp only at h1
    subst h1
    rfl
  · simp only at h1
    subst h1
    cases p2 <;> exact ⟨rfl, rfl⟩
  · simp only at h2
    subst h2
    cases h1 with
    | inl h1 =>
        simp only at h1
        subst h1
        cases p2 <;> rfl
    | inr h1 =>
        simp only at h1
        subst h1
        cases p2 <;> rfl

/-- C4 witness: the amended initializer behavior on the demonstration host
(downloadable, download succeeds, re-probe available). -/
theorem initialize_amended_witness :
    (initDemoHost.probe1 = Availability.unavailable →
        initializeSafe (some "sp") "id0" initDemoHost
          = (Except.error InitError.unavailableErr, [])) ∧
    (initDemoHost.probe1 = Availability.available →
        (initializeSafe (some "sp") "id0" initDemoHost).2 = [] ∧
        (initializeSafe (some "sp") "id0" initDemoHost).1 =
          (if initDemoHost.probe2 = Availability.available then
              Except.ok { systemPrompt := some "sp", instanceId := "id0" }
            else Except.error InitError.downloadErr)) ∧
    ((initDemoHost.probe1 = Availability.downloadable ∨
        initDemoHost.probe1 = Availability.downloading) →
        initDemoHost.downloadOk = true →
        (initializeSafe (some "sp") "id0" initDemoHost).1 =
          (if initDemoHost.probe2 = Availability.available then
              Except.ok { systemPrompt := some "sp", instanceId := "id0" }
            else Except.error InitError.downloadErr)) :=
  initialize_amended (some "sp") "id0" initDemoHost rfl

/-- The firing assignment in which only the timeout source has fired. -/
def timerFiredOnly : Sig → Bool
  | Sig.timer => true
  | Sig.user => false

/-- C5 counterexample: with a truthy timeout and a caller-supplied signal
both present but `AbortSignal.any` unavailable, the generation call receives
only the caller's signal, and it does not fire when the timeout source
fires — so no first-fires-wins composition of the two sources happens. -/
theorem composeSignal_no_any_counterexample :
    (composeSignal (some 5) true false).1 = some (EffSig.single Sig.user) ∧
    effFires timerFiredOnly (EffSig.single Sig.user) = false := by
  exact ⟨rfl, rfl⟩

/-- C5 (amended): when both a truthy timeout and a caller signal are present
and `AbortSignal.any` is available, the generation call receives their
first-fires-wins composition; when `AbortSignal.any` is unavailable, the
caller's signal alone is passed (the timer is still created but cannot
cancel the call); when only one source is present it alone governs; when
neither is present, no composition occurs and no timer is created. -/
theorem composeSignal_amended (t : Nat) (hasAbortAny : Bool) (ht : t ≠ 0) :
    ((composeSignal (some t) true true).1
        = some (EffSig.anyOf [Sig.user, Sig.timer]) ∧
      ∀ fired : Sig → Bool,
        effFires fired (EffSig.anyOf [Sig.user, Sig.timer])
          = (fired Sig.user || fired Sig.timer)) ∧
    (composeSignal (some t) true false).1 = some (EffSig.single Sig.user) ∧
    ((composeSignal (some t) false hasAbortAny).1
        = some (EffSig.single Sig.timer) ∧
      (composeSignal (some t) false hasAbortAny).2 = true) ∧
    ((composeSignal none true hasAbortAny).1 = some (EffSig.single Sig.user) ∧
      (composeSignal none true hasAbortAny).2 = false) ∧
    composeSignal none false hasAbortAny = (none, false) := by
  have hnt : numTruthy (some t) = true := by
    simp [numTruthy]
    exact ht
  refine ⟨⟨?_, ?_⟩, ?_, ⟨?_, ?_⟩, ⟨?_, ?_⟩, ?_⟩
  · simp [composeSignal, hnt]
  · intro fired
    simp [effFires]
  · simp [composeSignal, hnt]
  · simp [composeSignal, hnt]
  · simp [composeSignal, hnt]
  · simp [composeSignal, numTruthy]
  · simp [composeSignal, numTruthy]
  · simp [composeSignal, numTruthy]

/-- C5 witness: the amended composition behavior at timeout 5 with
`AbortSignal.any` unavailable. -/
theorem composeSignal_amended_witness :
    ((composeSignal (some 5) true true).1
        = some (EffSig.anyOf [Sig.user, Sig.timer]) ∧
      ∀ fired : Sig → Bool,
        effFires fired (EffSig.anyOf [Sig.user, Sig.timer])
          = (fired Sig.user || fired Sig.timer)) ∧
    (composeSignal (some 5) true false).1 = some (EffSig.single Sig.user) ∧
    ((composeSignal (some 5) false false).1
        = some (EffSig.single Sig.timer) ∧
      (composeSignal (some 5) false false).2 = true) ∧
    ((composeSignal none true false).1 = some (EffSig.single Sig.user) ∧
      (composeSignal none true false).2 = false) ∧
    composeSignal none false false = (none, false) :=
  composeSignal_amended 5 false (by decide)

/-- C6: whenever the prompt body creates a timeout timer, the trace shows
the timer set and then cleared exactly once before the body returns — for
every host outcome (success, failure, or abort) — and the host outcome is
passed through unchanged. -/
theorem prompt_timer_cleared (timeout : Option Nat) (userSignal hasAbortAny : Bool)
    (hostPrompt : Option EffSig → Except String String)
    (hset : (composeSignal timeout userSignal hasAbortAny).2 = true) :
    (promptSessionBody timeout userSignal hasAbortAny hostPrompt).2
        = [PEvent.timerSet, PEvent.timerCleared] ∧
    (promptSessionBody timeout userSignal hasAbortAny hostPrompt).1
        = hostPrompt (composeSignal timeout userSignal hasAbortAny).1 := by
  simp [promptSessionBody, hset]

/-- C6 witness: a concrete cancelled run (timeout 5, host aborts) sets and
clears its timer. -/
theorem prompt_timer_cleared_witness :
    (promptSessionBody (some 5) false true
        (fun _ => Except.error "aborted")).2
      = [PEvent.timerSet, PEvent.timerCleared] ∧
    (promptSessionBody (some 5) false true
        (fun _ => Except.error "aborted")).1
      = Except.error "aborted" :=
  prompt_timer_cleared (some 5) false true (fun _ => Except.error "aborted") rfl

/-- Unwrapping with `okOrThrow` never changes an outcome: the throwing
outcome agrees with the underlying result. -/
theorem agrees_okOrThrow {ε α : Type} (r : Except ε α) :
    agrees (okOrThrow r) r := by
  cases r <;> simp [okOrThrow, agrees]

/-- C7: each of the five operations' throwing (default) form invokes the
result-returning form and merely translates its outcome — returning the
success payload or throwing exactly the carried error — so on every input
and host behavior the two forms report the same outcome. -/
theorem dual_convention_equivalence (T : Type)
    (sp : Option String) (uuid : String) (h : InitHost)
    (hostCreate : Option (List Message) → Except String Session)
    (options : Option (List Message))
    (createResult : Traced String Session)
    (cb : Session → ThrowOutcome String T)
    (promptText : String) (timeout : Option Nat) (userSignal hasAbortAny : Bool)
    (hostPrompt : Session → Option EffSig → Except String String) :
    agrees (initializeDefault sp uuid h) (initializeSafe sp uuid h).1 ∧
    agrees (createSession hostCreate sp options)
      (createSessionSafe hostCreate sp options).1 ∧
    agrees (withSession createResult cb)
      (withSessionSafe createResult (fun s => fromPromiseConv (cb s))).1 ∧
    agrees (checkTokenUsage hostCreate sp promptText options)
      (checkTokenUsageSafe hostCreate sp promptText options).1 ∧
    agrees (prompt hostCreate sp timeout userSignal hasAbortAny hostPrompt options)
      (promptSafe hostCreate sp timeout userSignal hasAbortAny hostPrompt options).1 :=
  ⟨agrees_okOrThrow _, agrees_okOrThrow _, agrees_okOrThrow _,
    agrees_okOrThrow _, agrees_okOrThrow _⟩

/-- C8: under the override merge of `createSession` in `src/safe.ts` with a
truthy system instruction, the synthesized system message is the sole
initial prompt exactly when the caller supplied no initial messages (absent
or an empty list); any non-empty caller list — system-led or not — fully
replaces it. -/
theorem mergeSafe_override (sp : String) (hsp : sp ≠ "") (ps : List Message)
    (hps : ps ≠ []) :
    mergeInitialPromptsSafe (some sp) none = some [systemMessage sp] ∧
    mergeInitialPromptsSafe (some sp) (some []) = some [systemMessage sp] ∧
    mergeInitialPromptsSafe (some sp) (some ps) = some ps := by
  have htr : strTruthy (some sp) = true := by
    simp [strTruthy]
    exact hsp
  refine ⟨?_, ?_, ?_⟩
  · simp [mergeInitialPromptsSafe, htr]
  · simp [mergeInitialPromptsSafe, htr]
  · cases ps with
    | nil => exact absurd rfl hps
    | cons a t => simp [mergeInitialPromptsSafe]

/-- C8 witness: the override merge evaluated at system instruction `"A"`
and caller messages `[user "x"]`. -/
theorem mergeSafe_override_witness :
    mergeInitialPromptsSafe (some "A") none = some [systemMessage "A"] ∧
    mergeInitialPromptsSafe (some "A") (some []) = some [systemMessage "A"] ∧
    mergeInitialPromptsSafe (some "A")
        (some [{ role := Role.user, content := "x" }])
      = some [{ role := Role.user, content := "x" }] :=
  mergeSafe_override "A" (by decide) [{ role := Role.user, content := "x" }]
    (by decide)

/-- C9: a timeout of `0` is falsy and treated as absent: the composed
signal and timer-creation flag coincide with the no-timeout case, no timer
is created, and the whole prompt body behaves exactly as if no timeout had
been supplied. -/
theorem prompt_timeout_zero_absent (userSignal hasAbortAny : Bool)
    (hostPrompt : Option EffSig → Except String String) :
    composeSignal (some 0) userSignal hasAbortAny
        = composeSignal none userSignal hasAbortAny ∧
    (composeSignal (some 0) userSignal hasAbortAny).2 = false ∧
    promptSessionBody (some 0) userSignal hasAbortAny hostPrompt
        = promptSessionBody none userSignal hasAbortAny hostPrompt := by
  cases userSignal <;> cases hasAbortAny <;> exact ⟨rfl, rfl, rfl⟩

end SimpleChromiumAI
